import Mathlib

/-!
Verification of the throttling and cooldown engine of the taskmanager
repository, as a shallow embedding in Lean 4.

Embedded source locations:
- the sliding-window rate limiter Lua script and constructor
  (internal/ratelimit, package ratelimit);
- the HTTP middleware around the script (package ratelimit, Middleware);
- the OTP service (internal/service/otp_service.go);
- the cache adapter semantics (internal/cache/redis.go).

Machine integers are modelled as Int with explicit wrapping where Go's
int64 arithmetic can overflow.  Time is modelled in integral units
(milliseconds for the limiter, seconds for the OTP engine), matching the
units the source uses; all durations occurring in the source are whole
numbers of those units, so no precision is lost.
-/

namespace Taskmanager

/-! ### Sliding-window rate limiter (package ratelimit)

The Lua script operates on a Redis sorted set where each member is an
admission timestamp in milliseconds and the member's score equals the
member itself.  We model the set as a duplicate-free list of Int; ZADD of
an already-present member leaves the set unchanged (same member, same
score), which the insertion below reproduces.  The script's EXPIRE of the
whole key only shortens the set's lifetime (an expired key reads as the
empty set), so it cannot increase any count and is not modelled. -/

/-- Result triple returned by the Lua script: allowed flag, remaining
quota, and the reset timestamp in milliseconds. -/
structure AdmitResult where
  allowed : Bool
  remaining : Int
  resetAt : Int
deriving DecidableEq

/-- ZREMRANGEBYSCORE key 0 (now - window): removes exactly the members
whose score lies in the closed interval from 0 to now - window. -/
def purge (window now : Int) (s : List Int) : List Int :=
  s.filter (fun x => !(decide (0 ≤ x) && decide (x ≤ now - window)))

/-- ZRANGE key 0 0 WITHSCORES: the lowest-scored member, if any. -/
def oldestOf (s : List Int) : Option Int :=
  s.min?

/-- The Lua script of the rate limiter, one atomic execution: purge stale
members, count, and either admit (inserting now, returning remaining
quota) or deny.  Returns the result triple and the sorted set as left in
the store (the purge persists in both branches). -/
def luaAdmit (limit window now : Int) (s : List Int) : AdmitResult × List Int :=
  let s1 := purge window now s
  let count : Int := s1.length
  let oldest := oldestOf s1
  let reset := match oldest with
    | some o => o + window
    | none => now + window
  if count < limit then
    let s2 := if now ∈ s1 then s1 else now :: s1
    ({ allowed := true, remaining := limit - count - 1, resetAt := reset }, s2)
  else
    ({ allowed := false, remaining := 0, resetAt := reset }, s1)

/-- A sequence of Admit executions for one identifier, at the given call
times, threading the stored set; returns all results and final set. -/
def admitSeq (limit window : Int) : List Int → List Int → List AdmitResult × List Int
  | [], s => ([], s)
  | t :: ts, s =>
    let p := luaAdmit limit window t s
    let q := admitSeq limit window ts p.2
    (p.1 :: q.1, q.2)

/-- Retry-After computation of the middleware: (resetTime - now) / 1000
with Go integer division (truncation toward zero), clamped at zero. -/
def retryAfterSec (resetTime now : Int) : Int :=
  if Int.tdiv (resetTime - now) 1000 < 0 then 0
  else Int.tdiv (resetTime - now) 1000

/-- Observable outcome of the rate-limiting middleware for one request:
whether the wrapped handler ran, whether a 429 was written, whether a
Redis error was counted in the redisErrors metric, and the Retry-After
header if set. -/
structure MWOutcome where
  served : Bool
  status429 : Bool
  anomalyRecorded : Bool
  retryAfterHeader : Option Int
deriving DecidableEq

/-- The middleware's handling of one request, given the outcome of the
Lua script execution (`Except.error` models a Redis error or timeout).
On error: the redisErrors counter is incremented and the request is
passed to the next handler (fail open).  On success: allowed requests are
served; denied requests get a Retry-After header and a 429. -/
def middlewareStep (scriptRes : Except Unit AdmitResult) (now : Int) : MWOutcome :=
  match scriptRes with
  | .error _ =>
    { served := true, status429 := false, anomalyRecorded := true, retryAfterHeader := none }
  | .ok r =>
    if r.allowed then
      { served := true, status429 := false, anomalyRecorded := false, retryAfterHeader := none }
    else
      { served := false, status429 := true, anomalyRecorded := false,
        retryAfterHeader := some (retryAfterSec r.resetAt now) }

/-- Configuration fields consulted by NewRateLimiter. -/
structure RateLimitConfig where
  enabled : Bool
  requestsPerMinute : Int
  window : Int
deriving DecidableEq

/-- The limiter state NewRateLimiter builds (limit and window; the window
is kept in seconds here, as in the config). -/
structure RateLimiterSettings where
  limit : Int
  window : Int
deriving DecidableEq

/-- NewRateLimiter's configuration handling: it errors only when rate
limiting is disabled (the Redis ping, a network effect, is assumed to
succeed); a zero requests-per-minute defaults to 100 and a zero window
defaults to 60 seconds.  No other validation is performed. -/
def newRateLimiter (cfg : RateLimitConfig) : Except String RateLimiterSettings :=
  if !cfg.enabled then
    .error "rate limiting is disabled in config"
  else
    let limit := if cfg.requestsPerMinute == 0 then 100 else cfg.requestsPerMinute
    let window := if cfg.window == 0 then 60 else cfg.window
    .ok { limit := limit, window := window }

/-! Invariant machinery for C1. -/

lemma purge_length_le (window now : Int) (s : List Int) :
    (purge window now s).length ≤ s.length :=
  List.length_filter_le _ s

lemma luaAdmit_state_length (limit window now : Int) (s : List Int)
    (hs : (s.length : Int) ≤ limit) :
    (((luaAdmit limit window now s).2).length : Int) ≤ limit := by
  unfold luaAdmit
  have hp : ((purge window now s).length : Int) ≤ limit := by
    have := purge_length_le window now s
    omega
  by_cases hc : ((purge window now s).length : Int) < limit
  · simp only [hc, if_pos]
    by_cases hm : now ∈ purge window now s
    · simp [hm]; omega
    · simp [hm]; omega
  · simp only [hc, if_neg, not_false_iff]
    simpa using hp

lemma admitSeq_state_length (limit window : Int) (ts : List Int) :
    ∀ s : List Int, (s.length : Int) ≤ limit →
      (((admitSeq limit window ts s).2).length : Int) ≤ limit := by
  induction ts with
  | nil => intro s hs; simpa [admitSeq] using hs
  | cons t ts ih =>
    intro s hs
    simp only [admitSeq]
    exact ih _ (luaAdmit_state_length limit window t s hs)

/-- C1: for every identifier, after any finite sequence of Admit
executions at arbitrary call times starting from an empty window, both
the count the script takes (stale members purged first) at any further
instant and the number of recorded timestamps lying within the rolling
window never exceed the configured limit. -/
theorem admit_count_never_exceeds_limit (limit window : Int) (hlim : 0 ≤ limit)
    (ts : List Int) (t : Int) :
    (((purge window t (admitSeq limit window ts []).2).length : Int) ≤ limit) ∧
    ((((admitSeq limit window ts []).2.filter
        (fun x => decide (t - window ≤ x) && decide (x ≤ t))).length : Int) ≤ limit) := by
  have hstate : (((admitSeq limit window ts []).2).length : Int) ≤ limit := by
    apply admitSeq_state_length
    simpa using hlim
  constructor
  · have := purge_length_le window t (admitSeq limit window ts []).2
    omega
  · have := List.length_filter_le
      (fun x => decide (t - window ≤ x) && decide (x ≤ t)) (admitSeq limit window ts []).2
    omega

/-- Witness for C1 at limit 5, window 60000, three calls. -/
theorem admit_count_never_exceeds_limit_witness :
    (0:Int) ≤ 5 ∧
    ((((purge 60000 700 (admitSeq 5 60000 [100, 200, 300] []).2).length : Int) ≤ 5) ∧
     ((((admitSeq 5 60000 [100, 200, 300] []).2.filter
         (fun x => decide (700 - 60000 ≤ x) && decide (x ≤ 700))).length : Int) ≤ 5)) :=
  ⟨by norm_num, admit_count_never_exceeds_limit 5 60000 (by norm_num) [100, 200, 300] 700⟩

/-! Step lemmas used to evaluate concrete Admit sequences. -/

lemma purge_eq_of (window now : Int) (s : List Int)
    (h : ∀ x ∈ s, now - window < x) : purge window now s = s := by
  apply List.filter_eq_self.mpr
  intro x hx
  have := h x hx
  simp only [Bool.not_eq_true', Bool.and_eq_false_iff, decide_eq_false_iff_not]
  right
  omega

lemma luaAdmit_allowed (limit window now : Int) (s : List Int)
    (hkeep : purge window now s = s) (hmem : now ∉ s)
    (hcount : (s.length : Int) < limit) :
    luaAdmit limit window now s =
      ({ allowed := true, remaining := limit - (s.length : Int) - 1,
         resetAt := match oldestOf s with
           | some o => o + window
           | none => now + window }, now :: s) := by
  unfold luaAdmit
  simp only [hkeep]
  rw [if_pos hcount, if_neg hmem]

lemma luaAdmit_denied (limit window now : Int) (s : List Int)
    (hkeep : purge window now s = s)
    (hcount : ¬ ((s.length : Int) < limit)) :
    luaAdmit limit window now s =
      ({ allowed := false, remaining := 0,
         resetAt := match oldestOf s with
           | some o => o + window
           | none => now + window }, s) := by
  unfold luaAdmit
  simp only [hkeep]
  rw [if_neg hcount]

lemma retryAfterSec_pos (resetTime now : Int) (h : 1000 ≤ resetTime - now) :
    0 < retryAfterSec resetTime now := by
  unfold retryAfterSec
  have h0 : (0:Int) ≤ resetTime - now := by omega
  rw [Int.tdiv_eq_ediv h0 (by norm_num)]
  rw [if_neg (by omega)]
  omega

/-- C2: with limit 5 and window 60 s (60000 ms), six Admit executions
for one identifier at distinct strictly increasing timestamps spanning
less than one second, starting from an empty window, are allowed with
remaining 4, 3, 2, 1, 0 and then denied with remaining 0; the denial's
Retry-After, computed as the middleware does, is strictly positive. -/
theorem admit_six_calls_scenario (t0 t1 t2 t3 t4 t5 : Int)
    (h01 : t0 < t1) (h12 : t1 < t2) (h23 : t2 < t3) (h34 : t3 < t4)
    (h45 : t4 < t5) (hspan : t5 - t0 < 1000) :
    admitSeq 5 60000 [t0, t1, t2, t3, t4, t5] [] =
      ([{ allowed := true, remaining := 4, resetAt := t0 + 60000 },
        { allowed := true, remaining := 3, resetAt := t0 + 60000 },
        { allowed := true, remaining := 2, resetAt := t0 + 60000 },
        { allowed := true, remaining := 1, resetAt := t0 + 60000 },
        { allowed := true, remaining := 0, resetAt := t0 + 60000 },
        { allowed := false, remaining := 0, resetAt := t0 + 60000 }],
       [t4, t3, t2, t1, t0]) ∧
    0 < retryAfterSec (t0 + 60000) t5 := by
  have e0 : luaAdmit 5 60000 t0 [] =
      ({ allowed := true, remaining := 4, resetAt := t0 + 60000 }, [t0]) := by
    rw [luaAdmit_allowed 5 60000 t0 [] (by rfl) (by simp) (by norm_num)]
    simp [oldestOf]
  have e1 : luaAdmit 5 60000 t1 [t0] =
      ({ allowed := true, remaining := 3, resetAt := t0 + 60000 }, [t1, t0]) := by
    rw [luaAdmit_allowed 5 60000 t1 [t0]
      (purge_eq_of _ _ _ (by intro x hx; simp at hx; omega))
      (by simp; omega) (by simp)]
    simp [oldestOf, List.min?]
  have e2 : luaAdmit 5 60000 t2 [t1, t0] =
      ({ allowed := true, remaining := 2, resetAt := t0 + 60000 }, [t2, t1, t0]) := by
    rw [luaAdmit_allowed 5 60000 t2 [t1, t0]
      (purge_eq_of _ _ _ (by intro x hx; simp at hx; omega))
      (by simp; omega) (by simp)]
    simp [oldestOf, List.min?, List.foldl]
    omega
  have e3 : luaAdmit 5 60000 t3 [t2, t1, t0] =
      ({ allowed := true, remaining := 1, resetAt := t0 + 60000 }, [t3, t2, t1, t0]) := by
    rw [luaAdmit_allowed 5 60000 t3 [t2, t1, t0]
      (purge_eq_of _ _ _ (by intro x hx; simp at hx; omega))
      (by simp; omega) (by simp)]
    simp [oldestOf, List.min?, List.foldl]
    omega
  have e4 : luaAdmit 5 60000 t4 [t3, t2, t1, t0] =
      ({ allowed := true, remaining := 0, resetAt := t0 + 60000 },
       [t4, t3, t2, t1, t0]) := by
    rw [luaAdmit_allowed 5 60000 t4 [t3, t2, t1, t0]
      (purge_eq_of _ _ _ (by intro x hx; simp at hx; omega))
      (by simp; omega) (by simp)]
    simp [oldestOf, List.min?, List.foldl]
    omega
  have e5 : luaAdmit 5 60000 t5 [t4, t3, t2, t1, t0] =
      ({ allowed := false, remaining := 0, resetAt := t0 + 60000 },
       [t4, t3, t2, t1, t0]) := by
    rw [luaAdmit_denied 5 60000 t5 [t4, t3, t2, t1, t0]
      (purge_eq_of _ _ _ (by intro x hx; simp at hx; omega))
      (by simp)]
    simp [oldestOf, List.min?, List.foldl]
    omega
  refine ⟨?_, retryAfterSec_pos _ _ (by omega)⟩
  simp only [admitSeq, e0, e1, e2, e3, e4, e5]

/-- Witness for C2 at timestamps 0, 100, ..., 500 ms. -/
theorem admit_six_calls_scenario_witness :
    ((0:Int) < 100 ∧ (100:Int) < 200 ∧ (200:Int) < 300 ∧ (300:Int) < 400 ∧
     (400:Int) < 500 ∧ (500:Int) - 0 < 1000) ∧
    (admitSeq 5 60000 [0, 100, 200, 300, 400, 500] [] =
      ([{ allowed := true, remaining := 4, resetAt := 0 + 60000 },
        { allowed := true, remaining := 3, resetAt := 0 + 60000 },
        { allowed := true, remaining := 2, resetAt := 0 + 60000 },
        { allowed := true, remaining := 1, resetAt := 0 + 60000 },
        { allowed := true, remaining := 0, resetAt := 0 + 60000 },
        { allowed := false, remaining := 0, resetAt := 0 + 60000 }],
       [400, 300, 200, 100, 0]) ∧
     0 < retryAfterSec (0 + 60000) 500) :=
  ⟨by norm_num,
   admit_six_calls_scenario 0 100 200 300 400 500
     (by norm_num) (by norm_num) (by norm_num) (by norm_num) (by norm_num)
     (by norm_num)⟩

/-- C5: when the Lua script execution errors or times out, the
middleware serves the request (fail open), writes no 429 and surfaces no
error to the client, and records the failure in the redisErrors
metric. -/
theorem middleware_fails_open (now : Int) :
    middlewareStep (.error ()) now =
      { served := true, status429 := false, anomalyRecorded := true,
        retryAfterHeader := none } := rfl

/-- C9 counterexample: NewRateLimiter accepts an enabled configuration
with a negative window (keeping it) and defaults a zero window to one
minute; neither is rejected as a configuration error. -/
theorem newRateLimiter_accepts_nonpositive_window :
    newRateLimiter { enabled := true, requestsPerMinute := 7, window := -5 } =
      .ok { limit := 7, window := -5 } ∧
    newRateLimiter { enabled := true, requestsPerMinute := 7, window := 0 } =
      .ok { limit := 7, window := 60 } :=
  ⟨rfl, rfl⟩

/-- C9 amended: construction succeeds for every enabled configuration —
a zero requests-per-minute defaults to 100 and a zero window defaults to
60 seconds, while negative values are accepted unchanged — and an Admit
evaluation with limit at most 0 always denies. -/
theorem limiter_construction_and_nonpositive_limit (cfg : RateLimitConfig)
    (henabled : cfg.enabled = true) (limit window now : Int) (s : List Int)
    (hlim : limit ≤ 0) :
    newRateLimiter cfg =
      .ok { limit := if cfg.requestsPerMinute == 0 then 100 else cfg.requestsPerMinute,
            window := if cfg.window == 0 then 60 else cfg.window } ∧
    (luaAdmit limit window now s).1.allowed = false := by
  constructor
  · simp [newRateLimiter, henabled]
  · unfold luaAdmit
    have hlen : (0:Int) ≤ ((purge window now s).length : Int) := by positivity
    rw [if_neg (by omega)]

/-- Witness for C9's amended statement. -/
theorem limiter_construction_and_nonpositive_limit_witness :
    (({ enabled := true, requestsPerMinute := 7, window := -5 } :
        RateLimitConfig).enabled = true ∧ (0:Int) ≤ 0) ∧
    (newRateLimiter { enabled := true, requestsPerMinute := 7, window := -5 } =
      .ok { limit := if (7:Int) == 0 then 100 else 7,
            window := if (-5:Int) == 0 then 60 else -5 } ∧
     (luaAdmit 0 60000 42 []).1.allowed = false) :=
  ⟨⟨rfl, by norm_num⟩,
   limiter_construction_and_nonpositive_limit
     { enabled := true, requestsPerMinute := 7, window := -5 } rfl
     0 60000 42 [] (by norm_num)⟩

/-! ### Backoff calculator (internal/service/otp_service.go)

Two code paths compute the capped exponential backoff.

The verification-failure path (applyCooldown) computes
int(math.Min(60 * math.Pow(2, n-1), 3600)) in float64.  Every value of
60 * 2^(n-1) is exactly representable in float64 until it overflows to
infinity, and in either case math.Min returns exactly 3600 whenever the
product is at least 3600, so the conversion to int happens on a value
that is exactly min(60 * 2^(n-1), 3600); the integer formula below is
therefore an exact embedding for every n ≥ 1.

The issuance path (GenerateOTP) instead computes
int64(60) * int64(math.Pow(2, count-1)) in int64 and then caps values
greater than 3600.  math.Pow(2, count-1) is exact and its int64
conversion is well defined for count - 1 ≤ 62; the subsequent
multiplication by 60 wraps modulo 2^64 in two's complement (Go signed
overflow wraps).  The embedding below is exact for 1 ≤ count ≤ 63. -/

/-- Go int64 two's-complement wrapping of an integer. -/
def wrap64 (x : Int) : Int :=
  Int.emod (x + 2 ^ 63) (2 ^ 64) - 2 ^ 63

def MaxOTPAttempts : Int := 5

def InitialCooldownSeconds : Int := 60

def MaxCooldownSeconds : Int := 3600

/-- Backoff of applyCooldown: min(60 * 2^(n-1), 3600) seconds, computed
in float64 in the source, which is exact here (see above). -/
def verifyCooldownSeconds (n : Int) : Int :=
  min (InitialCooldownSeconds * 2 ^ (n - 1).toNat) MaxCooldownSeconds

/-- Backoff of the issuance guard in GenerateOTP: 60 * 2^(count-1)
computed in int64 (wrapping on overflow), values above 3600 capped.
Exact for 1 ≤ count ≤ 63 (see above). -/
def genCooldownSeconds (count : Int) : Int :=
  let p := wrap64 (60 * 2 ^ (count - 1).toNat)
  if p > 3600 then 3600 else p

/-! ### OTP engine (internal/service/otp_service.go)

The four Redis keys of one (email, ip address) pair are modelled as one
record of optional entries; each entry carries the stored value and the
absolute instant at which its TTL elapses (none meaning no TTL).  Time
is in whole seconds; every TTL the service sets is a whole number of
seconds.  A read of an entry whose TTL has elapsed behaves exactly like
a read of an absent key, as in Redis.

The cache adapter's Get (internal/cache/redis.go) returns a bare error
both when the key is absent (redis.Nil) and when the store fails
(network error or timeout); callers receive the same non-nil error in
both cases.  RedisGet below keeps the three outcomes distinct so that
the service's handling of store failures can be stated; the service
code itself branches only on error-versus-success, which the embeddings
below reproduce by treating nilErr and storeErr identically wherever
the source tests err != nil. -/

/-- A stored value together with the absolute expiry instant of its
key's TTL (none: no TTL). -/
structure Entry (α : Type) where
  val : α
  expireAt : Option Int
deriving DecidableEq

/-- Whether an entry's key is still alive at the given instant. -/
def entryLive (e : Entry α) (now : Int) : Bool :=
  match e.expireAt with
  | none => true
  | some t => decide (now < t)

/-- The value of an optional entry, respecting TTL expiry. -/
def liveVal (o : Option (Entry α)) (now : Int) : Option α :=
  match o with
  | none => none
  | some e => if entryLive e now then some e.val else none

/-- Outcome of one cache-adapter Get: the value, a redis.Nil miss, or a
store failure (network error or timeout). -/
inductive RedisGet (α : Type) where
  | ok (v : α)
  | nilErr
  | storeErr
deriving DecidableEq

/-- A Get against the store when the store itself does not fail. -/
def redisGet (o : Option (Entry α)) (now : Int) : RedisGet α :=
  match liveVal o now with
  | some v => .ok v
  | none => .nilErr

/-- EXISTS against the store (respects TTL expiry, as Redis does). -/
def existsLive (o : Option (Entry α)) (now : Int) : Bool :=
  (liveVal o now).isSome

/-- The cache adapter's TTL: remaining whole seconds for a live key
with a TTL; 0 for an absent or expired key or a key without TTL (the
adapter converts go-redis's markers of -1 ns and -2 ns through
Seconds() and int64, both of which truncate them to 0). -/
def ttlSeconds (o : Option (Entry α)) (now : Int) : Int :=
  match o with
  | none => 0
  | some e =>
    match e.expireAt with
    | none => 0
    | some t => if now < t then t - now else 0

/-- INCR: increments a live counter, or creates it at 1 when the key is
absent or expired. -/
def incrVal (o : Option (Entry Nat)) (now : Int) : Nat :=
  match liveVal o now with
  | some v => v + 1
  | none => 1

/-- The OTPRecord stored under otp:code:email:ip. -/
structure OTPData where
  code : String
  email : String
  userID : String
  createdAt : Int
  expiresAt : Int
  attempts : Int
  ipAddress : String
  verified : Bool
  lastAttemptAt : Int
deriving DecidableEq

/-- The CooldownRecord stored under otp:cooldown:email:ip. -/
structure CooldownData where
  failedAttempts : Int
  cooldownUntil : Int
  lastFailedAt : Int
deriving DecidableEq

/-- The four Redis keys of one (email, ip address) pair: the OTPRecord,
the CooldownRecord, the generation counter (otp:generation:count:...)
and the recently-issued guard key (otp:generation:..., storing the
issuance time). -/
structure OtpStore where
  otp : Option (Entry OTPData)
  cooldown : Option (Entry CooldownData)
  genCount : Option (Entry Nat)
  guard : Option (Entry Int)
deriving DecidableEq

/-- The store with none of the four keys present. -/
def emptyOtpStore : OtpStore :=
  { otp := none, cooldown := none, genCount := none, guard := none }

/-- Structured outcomes of the OTP service, with the machine-readable
details each error carries in the source (details maps). -/
inductive AppErr where
  | otpNotFound
  | otpAlreadyVerified
  | otpExpired
  | otpAttemptsExceeded
  | otpCooldown (retryAfter : Int) (cooldownUntil : Int) (otpExpiresIn : Option Int)
  | otpInvalid (remainingAttempts : Int)
deriving DecidableEq

/-- The value GetOTPExpiryTime yields to GenerateOTP (which ignores the
error): remaining validity in whole seconds, 0 on any error or when
already past expiry. -/
def getOTPExpiryTime (now : Int) (st : OtpStore) : Int :=
  match redisGet st.otp now with
  | .ok d =>
    if now > d.expiresAt then 0
    else if d.expiresAt - now < 0 then 0
    else d.expiresAt - now
  | _ => 0

/-- secureCompare of the source: a length check followed by OR-accumulated
byte-wise XOR, returning true exactly when the two byte strings are
equal.  Its value semantics is therefore string equality; the
constant-time execution profile is outside a functional embedding. -/
def secureCompare (a b : String) : Bool :=
  a == b

/-- applyCooldown: stores a CooldownRecord with the exponential-backoff
expiry for the given consecutive-failure count, with a matching key
TTL. -/
def applyCooldown (now failureCount : Int) (st : OtpStore) : OtpStore :=
  let cs := verifyCooldownSeconds failureCount
  { st with
    cooldown := some ⟨{ failedAttempts := failureCount,
                        cooldownUntil := now + cs,
                        lastFailedAt := now }, some (now + cs)⟩ }

/-- The issuance tail of GenerateOTP, reached when neither guard nor
cooldown blocks: store the new OTPRecord with a 600 s TTL, increment the
generation counter and refresh its TTL to one hour, and set the guard
key whose TTL is the issuance backoff for the counter's new value.  The
freshly generated random code is a parameter (crypto/rand is an external
source). -/
def issueOTP (now : Int) (freshCode email userID ip : String) (st : OtpStore) :
    Except AppErr OTPData × OtpStore :=
  let d : OTPData :=
    { code := freshCode, email := email, userID := userID,
      createdAt := now, expiresAt := now + 600, attempts := 0,
      ipAddress := ip, verified := false, lastAttemptAt := now }
  let st1 := { st with otp := some ⟨d, some (now + 600)⟩ }
  let count := incrVal st1.genCount now
  let st2 := { st1 with genCount := some ⟨count, some (now + 3600)⟩ }
  let cs := genCooldownSeconds (count : Int)
  let st3 := { st2 with guard := some ⟨now, some (now + cs)⟩ }
  (.ok d, st3)

/-- GenerateOTP.  If the recently-issued guard key exists, fail Cooldown
with retry-after from the guard TTL (defaulted to 60 when non-positive),
cooldown-until, and the remaining validity of any live code — while
still incrementing the generation counter and resetting its TTL to one
hour.  Otherwise, if an unexpired verification-failure CooldownRecord
exists, fail Cooldown with its timing.  Otherwise issue. -/
def generateOTP (now : Int) (freshCode email userID ip : String) (st : OtpStore) :
    Except AppErr OTPData × OtpStore :=
  if existsLive st.guard now then
    let ttl0 := ttlSeconds st.guard now
    let ttl := if ttl0 ≤ 0 then 60 else ttl0
    let expiresIn := getOTPExpiryTime now st
    let st1 := { st with genCount := some ⟨incrVal st.genCount now, some (now + 3600)⟩ }
    (.error (.otpCooldown ttl (now + ttl) (some expiresIn)), st1)
  else
    match redisGet st.cooldown now with
    | .ok cd =>
      if now < cd.cooldownUntil then
        (.error (.otpCooldown (cd.cooldownUntil - now) cd.cooldownUntil none), st)
      else
        issueOTP now freshCode email userID ip st
    | _ => issueOTP now freshCode email userID ip st

/-- VerifyOTP, parameterized by the outcome of its initial Get of the
OTPRecord.  The source tests only err != nil on that Get, so a store
failure and a redis.Nil miss take the same NotFound branch.  The
remaining store writes are modelled as succeeding (their errors are
ignored by the source except applyCooldown's, which cannot fail in a
fault-free store). -/
def verifyOTPCore (now : Int) (submitted : String) (st : OtpStore)
    (g : RedisGet OTPData) : Except AppErr OTPData × OtpStore :=
  match g with
  | .nilErr => (.error .otpNotFound, st)
  | .storeErr => (.error .otpNotFound, st)
  | .ok d =>
    if d.verified then
      (.error .otpAlreadyVerified, st)
    else if now > d.expiresAt then
      (.error .otpExpired, { st with otp := none })
    else
      let d1 := { d with attempts := d.attempts + 1, lastAttemptAt := now }
      if d1.attempts > MaxOTPAttempts then
        let st2 := applyCooldown now (d1.attempts - MaxOTPAttempts) { st with otp := none }
        (.error .otpAttemptsExceeded, st2)
      else if !secureCompare d.code submitted then
        let st1 := { st with otp := some ⟨d1, some d.expiresAt⟩ }
        let remaining := MaxOTPAttempts - d1.attempts
        if remaining == 0 then
          let st2 := applyCooldown now 1 { st1 with otp := none }
          (.error .otpAttemptsExceeded, st2)
        else
          (.error (.otpInvalid remaining), st1)
      else
        let d2 := { d1 with verified := true }
        ( .ok d2,
          { st with otp := some ⟨d2, some (now + 300)⟩,
                    cooldown := none, genCount := none })

/-- VerifyOTP in a run where the store does not fail. -/
def verifyOTP (now : Int) (submitted : String) (st : OtpStore) :
    Except AppErr OTPData × OtpStore :=
  verifyOTPCore now submitted st (redisGet st.otp now)

/-- CheckCooldown, parameterized by the outcome of its Get of the
CooldownRecord: any error (miss or store failure) reads as no active
cooldown; an expired record is lazily deleted; the function never
returns an error. -/
def checkCooldownCore (now : Int) (st : OtpStore) (g : RedisGet CooldownData) :
    Except AppErr (Option CooldownData) × OtpStore :=
  match g with
  | .nilErr => (.ok none, st)
  | .storeErr => (.ok none, st)
  | .ok cd =>
    if now > cd.cooldownUntil then
      (.ok none, { st with cooldown := none })
    else
      (.ok (some cd), st)

/-- CheckCooldown in a run where the store does not fail. -/
def checkCooldown (now : Int) (st : OtpStore) :
    Except AppErr (Option CooldownData) × OtpStore :=
  checkCooldownCore now st (redisGet st.cooldown now)

/-- InvalidateOTP: unconditional deletion of the OTPRecord. -/
def invalidateOTP (st : OtpStore) : OtpStore :=
  { st with otp := none }

/-- C6: the two backoff paths disagree with the specified formula at a
generation count of 59.  The verification-failure path yields
min(60 * 2^58, 3600) = 3600 there, but the issuance path's int64
computation of 60 * 2^58 wraps to a negative value, which the
greater-than-3600 cap does not catch, so the issuance guard duration is
-2^60 seconds instead of 3600. -/
theorem issuance_backoff_overflows_at_59 :
    genCooldownSeconds 59 = -1152921504606846976 ∧
    min ((60:Int) * 2 ^ (58:Nat)) 3600 = 3600 ∧
    verifyCooldownSeconds 59 = 3600 := by
  refine ⟨by decide, by decide, by decide⟩

/-! Step lemmas evaluating one VerifyOTP or GenerateOTP call. -/

lemma verifyOTP_wrong_not_last (now : Int) (w : String) (st : OtpStore) (d : OTPData)
    (hget : redisGet st.otp now = .ok d)
    (hver : d.verified = false) (hexp : ¬ now > d.expiresAt)
    (hatt : d.attempts + 1 < 5) (hw : (d.code == w) = false) :
    verifyOTP now w st =
      (.error (.otpInvalid (5 - (d.attempts + 1))),
       { st with otp := some ⟨{ d with attempts := d.attempts + 1, lastAttemptAt := now },
                              some d.expiresAt⟩ }) := by
  have h1 : ¬ (d.attempts + 1 > 5) := by omega
  have h2 : ¬ (5 - (d.attempts + 1) = 0) := by omega
  unfold verifyOTP
  rw [hget]
  simp [verifyOTPCore, MaxOTPAttempts, secureCompare, hver, hw, hexp, h1, h2]

lemma verifyOTP_wrong_last (now : Int) (w : String) (st : OtpStore) (d : OTPData)
    (hget : redisGet st.otp now = .ok d)
    (hver : d.verified = false) (hexp : ¬ now > d.expiresAt)
    (hatt : d.attempts + 1 = 5) (hw : (d.code == w) = false) :
    verifyOTP now w st =
      (.error .otpAttemptsExceeded,
       { st with otp := none,
                 cooldown := some ⟨{ failedAttempts := 1, cooldownUntil := now + 60,
                                     lastFailedAt := now }, some (now + 60)⟩ }) := by
  have h1 : ¬ (d.attempts + 1 > 5) := by omega
  have h2 : 5 - (d.attempts + 1) = 0 := by omega
  unfold verifyOTP
  rw [hget]
  simp [verifyOTPCore, MaxOTPAttempts, secureCompare, applyCooldown,
    verifyCooldownSeconds, InitialCooldownSeconds, MaxCooldownSeconds,
    hver, hw, hexp, h1, h2]

lemma verifyOTP_correct (now : Int) (w : String) (st : OtpStore) (d : OTPData)
    (hget : redisGet st.otp now = .ok d)
    (hver : d.verified = false) (hexp : ¬ now > d.expiresAt)
    (hatt : ¬ (d.attempts + 1 > 5)) (hw : (d.code == w) = true) :
    verifyOTP now w st =
      (.ok { d with attempts := d.attempts + 1, lastAttemptAt := now, verified := true },
       { st with
           otp := some ⟨{ d with attempts := d.attempts + 1,
                                 lastAttemptAt := now,
                                 verified := true },
                        some (now + 300)⟩,
           cooldown := none, genCount := none }) := by
  unfold verifyOTP
  rw [hget]
  simp [verifyOTPCore, MaxOTPAttempts, secureCompare, hver, hw, hexp, hatt]

lemma verifyOTP_notfound (now : Int) (w : String) (st : OtpStore)
    (hget : redisGet st.otp now = .nilErr) :
    verifyOTP now w st = (.error .otpNotFound, st) := by
  unfold verifyOTP
  rw [hget]
  rfl

lemma verifyOTP_already (now : Int) (w : String) (st : OtpStore) (d : OTPData)
    (hget : redisGet st.otp now = .ok d) (hver : d.verified = true) :
    verifyOTP now w st = (.error .otpAlreadyVerified, st) := by
  unfold verifyOTP
  rw [hget]
  simp [verifyOTPCore, hver]

lemma generateOTP_from_empty (now : Int) (code email userID ip : String) :
    generateOTP now code email userID ip emptyOtpStore =
      (.ok { code := code, email := email, userID := userID, createdAt := now,
             expiresAt := now + 600, attempts := 0, ipAddress := ip,
             verified := false, lastAttemptAt := now },
       { otp := some ⟨{ code := code, email := email, userID := userID,
                        createdAt := now, expiresAt := now + 600, attempts := 0,
                        ipAddress := ip, verified := false, lastAttemptAt := now },
                      some (now + 600)⟩,
         cooldown := none,
         genCount := some ⟨1, some (now + 3600)⟩,
         guard := some ⟨now, some (now + 60)⟩ }) := by
  have hwrap : genCooldownSeconds 1 = 60 := by decide
  simp [generateOTP, emptyOtpStore, existsLive, liveVal, redisGet, issueOTP,
    incrVal, hwrap]

/-- C4 counterexample: when the initial Get fails with a store error,
Verify reports the NotFound domain outcome (HTTP 404 in the source, not
a server-side error), and CheckCooldown reports no active cooldown —
proceeding as if the read had found nothing. -/
theorem store_error_reported_as_notfound :
    verifyOTPCore 0 "123456" emptyOtpStore .storeErr =
      (.error .otpNotFound, emptyOtpStore) ∧
    checkCooldownCore 0 emptyOtpStore .storeErr = (.ok none, emptyOtpStore) :=
  ⟨rfl, rfl⟩

/-- C4 amended: on a store error or timeout of the initial read, Verify
fails with the NotFound domain outcome and CheckCooldown reports no
active cooldown, exactly as for an absent key; no internal or
server-side error is surfaced (the source cannot distinguish the two
error cases of the cache adapter's Get). -/
theorem store_error_conflated_with_absence (now : Int) (w : String) (st : OtpStore) :
    verifyOTPCore now w st .storeErr = (.error .otpNotFound, st) ∧
    checkCooldownCore now st .storeErr = (.ok none, st) :=
  ⟨rfl, rfl⟩

/-- C7: when Verify succeeds with the correct code, the stored record is
marked verified and retained with a TTL ending a 300-second grace window
after the call, the CooldownRecord is cleared, the generation counter is
reset, and a second Verify with the same code at any instant inside the
grace window fails AlreadyVerified. -/
theorem verify_success_effects (now t2 : Int) (w : String) (st : OtpStore) (d : OTPData)
    (hget : redisGet st.otp now = .ok d) (hver : d.verified = false)
    (hexp : ¬ now > d.expiresAt) (hatt : ¬ (d.attempts + 1 > 5))
    (hw : (d.code == w) = true) (hgrace : t2 < now + 300) :
    verifyOTP now w st =
      (.ok { d with attempts := d.attempts + 1, lastAttemptAt := now, verified := true },
       { st with
           otp := some ⟨{ d with attempts := d.attempts + 1,
                                 lastAttemptAt := now,
                                 verified := true },
                        some (now + 300)⟩,
           cooldown := none, genCount := none }) ∧
    (verifyOTP t2 w
      { st with
          otp := some ⟨{ d with attempts := d.attempts + 1,
                                lastAttemptAt := now,
                                verified := true },
                       some (now + 300)⟩,
          cooldown := none, genCount := none }).1 = .error .otpAlreadyVerified := by
  refine ⟨verifyOTP_correct now w st d hget hver hexp hatt hw, ?_⟩
  rw [verifyOTP_already t2 w _
    { d with attempts := d.attempts + 1, lastAttemptAt := now, verified := true }
    (by simp [redisGet, liveVal, entryLive, hgrace]) rfl]

/-- Witness for C7. -/
theorem verify_success_effects_witness :
    (redisGet (some ⟨{ code := "222222", email := "e", userID := "u", createdAt := 0,
                       expiresAt := 600, attempts := 0, ipAddress := "i",
                       verified := false, lastAttemptAt := 0 }, some 600⟩ :
        Option (Entry OTPData)) 10 =
      .ok { code := "222222", email := "e", userID := "u", createdAt := 0,
            expiresAt := 600, attempts := 0, ipAddress := "i",
            verified := false, lastAttemptAt := 0 } ∧
     (200:Int) < 10 + 300) ∧
    (verifyOTP 10 "222222"
      { otp := some ⟨{ code := "222222", email := "e", userID := "u", createdAt := 0,
                       expiresAt := 600, attempts := 0, ipAddress := "i",
                       verified := false, lastAttemptAt := 0 }, some 600⟩,
        cooldown := some ⟨{ failedAttempts := 2, cooldownUntil := 100,
                            lastFailedAt := 0 }, some 100⟩,
        genCount := some ⟨3, some 3600⟩, guard := none } =
      (.ok { code := "222222", email := "e", userID := "u", createdAt := 0,
             expiresAt := 600, attempts := 1, ipAddress := "i",
             verified := true, lastAttemptAt := 10 },
       { otp := some ⟨{ code := "222222", email := "e", userID := "u", createdAt := 0,
                        expiresAt := 600, attempts := 1, ipAddress := "i",
                        verified := true, lastAttemptAt := 10 }, some 310⟩,
         cooldown := none, genCount := none, guard := none }) ∧
     (verifyOTP 200 "222222"
       { otp := some ⟨{ code := "222222", email := "e", userID := "u", createdAt := 0,
                        expiresAt := 600, attempts := 1, ipAddress := "i",
                        verified := true, lastAttemptAt := 10 }, some 310⟩,
         cooldown := none, genCount := none, guard := none }).1 =
       .error .otpAlreadyVerified) := by
  constructor
  · exact ⟨by decide, by norm_num⟩
  · have h := verify_success_effects 10 200 "222222"
      { otp := some ⟨{ code := "222222", email := "e", userID := "u", createdAt := 0,
                       expiresAt := 600, attempts := 0, ipAddress := "i",
                       verified := false, lastAttemptAt := 0 }, some 600⟩,
        cooldown := some ⟨{ failedAttempts := 2, cooldownUntil := 100,
                            lastFailedAt := 0 }, some 100⟩,
        genCount := some ⟨3, some 3600⟩, guard := none }
      { code := "222222", email := "e", userID := "u", createdAt := 0,
        expiresAt := 600, attempts := 0, ipAddress := "i",
        verified := false, lastAttemptAt := 0 }
      (by decide) rfl (by norm_num) (by norm_num) (by decide) (by norm_num)
    simpa using h

/-- C8: when Verify fails Invalid (wrong code while attempts remain),
the persisted record differs from the one read only in the attempt count
(incremented by one) and the last-attempt time, keeping the same code
and expiry, its key TTL still ends at the unchanged expiry, the other
three keys are untouched, and the response carries the remaining
attempts. -/
theorem verify_invalid_frame (now : Int) (w : String) (st : OtpStore) (d : OTPData)
    (hget : redisGet st.otp now = .ok d)
    (hver : d.verified = false) (hexp : ¬ now > d.expiresAt)
    (hatt : d.attempts + 1 < 5) (hw : (d.code == w) = false) :
    verifyOTP now w st =
      (.error (.otpInvalid (5 - (d.attempts + 1))),
       { st with otp := some ⟨{ d with attempts := d.attempts + 1, lastAttemptAt := now },
                              some d.expiresAt⟩ }) ∧
    ({ d with attempts := d.attempts + 1, lastAttemptAt := now } : OTPData).code = d.code ∧
    ({ d with attempts := d.attempts + 1, lastAttemptAt := now } : OTPData).expiresAt =
      d.expiresAt :=
  ⟨verifyOTP_wrong_not_last now w st d hget hver hexp hatt hw, rfl, rfl⟩

/-- Witness for C8. -/
theorem verify_invalid_frame_witness :
    (redisGet (some ⟨{ code := "222222", email := "e", userID := "u", createdAt := 0,
                       expiresAt := 600, attempts := 1, ipAddress := "i",
                       verified := false, lastAttemptAt := 0 }, some 600⟩ :
        Option (Entry OTPData)) 10 =
      .ok { code := "222222", email := "e", userID := "u", createdAt := 0,
            expiresAt := 600, attempts := 1, ipAddress := "i",
            verified := false, lastAttemptAt := 0 } ∧
     (1:Int) + 1 < 5) ∧
    verifyOTP 10 "999999"
      { otp := some ⟨{ code := "222222", email := "e", userID := "u", createdAt := 0,
                       expiresAt := 600, attempts := 1, ipAddress := "i",
                       verified := false, lastAttemptAt := 0 }, some 600⟩,
        cooldown := none, genCount := some ⟨3, some 3600⟩, guard := none } =
      (.error (.otpInvalid (5 - (1 + 1))),
       { otp := some ⟨{ code := "222222", email := "e", userID := "u", createdAt := 0,
                        expiresAt := 600, attempts := 1 + 1, ipAddress := "i",
                        verified := false, lastAttemptAt := 10 }, some 600⟩,
         cooldown := none, genCount := some ⟨3, some 3600⟩, guard := none }) := by
  constructor
  · exact ⟨by decide, by norm_num⟩
  · have h := verify_invalid_frame 10 "999999"
      { otp := some ⟨{ code := "222222", email := "e", userID := "u", createdAt := 0,
                       expiresAt := 600, attempts := 1, ipAddress := "i",
                       verified := false, lastAttemptAt := 0 }, some 600⟩,
        cooldown := none, genCount := some ⟨3, some 3600⟩, guard := none }
      { code := "222222", email := "e", userID := "u", createdAt := 0,
        expiresAt := 600, attempts := 1, ipAddress := "i",
        verified := false, lastAttemptAt := 0 }
      (by decide) rfl (by norm_num) (by norm_num) (by decide)
    simpa using h.1

/-- C10: a Generate call made while the recently-issued guard key is
alive fails Cooldown, yet still increments the generation counter and
resets that counter's TTL to one hour after the call; the other keys are
untouched. -/
theorem generate_during_guard_mutates_counter (now : Int)
    (code email userID ip : String) (st : OtpStore) (g : Entry Int)
    (hguard : st.guard = some g) (hlive : entryLive g now = true) :
    generateOTP now code email userID ip st =
      (.error (.otpCooldown
          (if ttlSeconds st.guard now ≤ 0 then 60 else ttlSeconds st.guard now)
          (now + (if ttlSeconds st.guard now ≤ 0 then 60 else ttlSeconds st.guard now))
          (some (getOTPExpiryTime now st))),
       { st with genCount := some ⟨incrVal st.genCount now, some (now + 3600)⟩ }) := by
  unfold generateOTP
  rw [if_pos (by simp [existsLive, liveVal, hguard, hlive])]

/-- Witness for C10: guard alive at instant 10 until 100, counter at 2
and alive; the call fails Cooldown with retry-after 90 and the counter
becomes 3 with TTL until 3610. -/
theorem generate_during_guard_mutates_counter_witness :
    (({ otp := none, cooldown := none, genCount := some ⟨2, some 50⟩,
        guard := some ⟨0, some 100⟩ } : OtpStore).guard = some ⟨0, some 100⟩ ∧
     entryLive (⟨0, some 100⟩ : Entry Int) 10 = true) ∧
    generateOTP 10 "222222" "e" "u" "i"
      { otp := none, cooldown := none, genCount := some ⟨2, some 50⟩,
        guard := some ⟨0, some 100⟩ } =
      (.error (.otpCooldown 90 100 (some 0)),
       { otp := none, cooldown := none, genCount := some ⟨3, some 3610⟩,
         guard := some ⟨0, some 100⟩ }) := by
  constructor
  · exact ⟨rfl, by decide⟩
  · have h := generate_during_guard_mutates_counter 10 "222222" "e" "u" "i"
      { otp := none, cooldown := none, genCount := some ⟨2, some 50⟩,
        guard := some ⟨0, some 100⟩ }
      ⟨0, some 100⟩ rfl (by decide)
    simpa using h

/-- Decidable equality of Except values, for evaluating concrete service
outcomes. -/
instance {ε α : Type} [DecidableEq ε] [DecidableEq α] : DecidableEq (Except ε α) :=
  fun a b =>
    match a, b with
    | .error x, .error y =>
      match decEq x y with
      | .isTrue h => .isTrue (congrArg Except.error h)
      | .isFalse h => .isFalse (fun hh => h (Except.error.inj hh))
    | .ok x, .ok y =>
      match decEq x y with
      | .isTrue h => .isTrue (congrArg Except.ok h)
      | .isFalse h => .isFalse (fun hh => h (Except.ok.inj hh))
    | .error _, .ok _ => .isFalse (fun hh => Except.noConfusion hh)
    | .ok _, .error _ => .isFalse (fun hh => Except.noConfusion hh)

/-! Concrete trace for C3: issue the code 111111 at instant 0, then six
Verify calls at instants 1 to 6 — five with the wrong code 000000, the
sixth with the originally-correct code. -/

def c3Issue : Except AppErr OTPData × OtpStore :=
  generateOTP 0 "111111" "e" "u" "i" emptyOtpStore

def c3V1 : Except AppErr OTPData × OtpStore := verifyOTP 1 "000000" c3Issue.2

def c3V2 : Except AppErr OTPData × OtpStore := verifyOTP 2 "000000" c3V1.2

def c3V3 : Except AppErr OTPData × OtpStore := verifyOTP 3 "000000" c3V2.2

def c3V4 : Except AppErr OTPData × OtpStore := verifyOTP 4 "000000" c3V3.2

def c3V5 : Except AppErr OTPData × OtpStore := verifyOTP 5 "000000" c3V4.2

def c3V6 : Except AppErr OTPData × OtpStore := verifyOTP 6 "111111" c3V5.2

/-- C3 counterexample: in the concrete trace, the fifth wrong attempt
already fails AttemptsExceeded (carrying no remaining-attempts detail)
and deletes the record, so the sixth call with the originally-correct
code fails NotFound, not AttemptsExceeded as the claim states. -/
theorem sixth_verify_fails_notfound :
    c3V5.1 = .error .otpAttemptsExceeded ∧
    c3V5.2.otp = none ∧
    c3V6.1 = .error .otpNotFound ∧
    AppErr.otpNotFound ≠ AppErr.otpAttemptsExceeded := by decide

/-- C3 amended: a code is issued and five Verify calls with wrong codes
follow inside the validity window.  The fifth call fails
AttemptsExceeded (with no remaining-attempts detail), deletes the
record, and activates a cooldown whose expiry lies 60 seconds in the
future; a sixth Verify call — whatever code it submits, including the
originally-correct one — fails NotFound. -/
theorem five_wrong_attempts_lock_then_notfound
    (code w1 w2 w3 w4 w5 w6 email userID ip : String)
    (t0 s1 s2 s3 s4 s5 s6 : Int)
    (hw1 : (code == w1) = false) (hw2 : (code == w2) = false)
    (hw3 : (code == w3) = false) (hw4 : (code == w4) = false)
    (hw5 : (code == w5) = false)
    (h1 : s1 < t0 + 600) (h2 : s2 < t0 + 600) (h3 : s3 < t0 + 600)
    (h4 : s4 < t0 + 600) (h5 : s5 < t0 + 600) :
    (verifyOTP s5 w5 (verifyOTP s4 w4 (verifyOTP s3 w3 (verifyOTP s2 w2 (verifyOTP s1 w1
        (generateOTP t0 code email userID ip emptyOtpStore).2).2).2).2).2).1
      = .error .otpAttemptsExceeded ∧
    (verifyOTP s5 w5 (verifyOTP s4 w4 (verifyOTP s3 w3 (verifyOTP s2 w2 (verifyOTP s1 w1
        (generateOTP t0 code email userID ip emptyOtpStore).2).2).2).2).2).2.cooldown
      = some ⟨⟨1, s5 + 60, s5⟩, some (s5 + 60)⟩ ∧
    s5 < s5 + 60 ∧
    (verifyOTP s5 w5 (verifyOTP s4 w4 (verifyOTP s3 w3 (verifyOTP s2 w2 (verifyOTP s1 w1
        (generateOTP t0 code email userID ip emptyOtpStore).2).2).2).2).2).2.otp
      = none ∧
    (verifyOTP s6 w6 (verifyOTP s5 w5 (verifyOTP s4 w4 (verifyOTP s3 w3 (verifyOTP s2 w2
        (verifyOTP s1 w1
          (generateOTP t0 code email userID ip emptyOtpStore).2).2).2).2).2).2).1
      = .error .otpNotFound := by
  have hg : (generateOTP t0 code email userID ip emptyOtpStore).2 =
      (⟨some ⟨⟨code, email, userID, t0, t0 + 600, 0, ip, false, t0⟩, some (t0 + 600)⟩,
        none, some ⟨1, some (t0 + 3600)⟩, some ⟨t0, some (t0 + 60)⟩⟩ : OtpStore) := by
    rw [generateOTP_from_empty]
  have e1 : verifyOTP s1 w1
      (⟨some ⟨⟨code, email, userID, t0, t0 + 600, 0, ip, false, t0⟩, some (t0 + 600)⟩,
        none, some ⟨1, some (t0 + 3600)⟩, some ⟨t0, some (t0 + 60)⟩⟩ : OtpStore) =
      (.error (.otpInvalid 4),
       ⟨some ⟨⟨code, email, userID, t0, t0 + 600, 1, ip, false, s1⟩, some (t0 + 600)⟩,
        none, some ⟨1, some (t0 + 3600)⟩, some ⟨t0, some (t0 + 60)⟩⟩) := by
    rw [verifyOTP_wrong_not_last s1 w1 _
      ⟨code, email, userID, t0, t0 + 600, 0, ip, false, t0⟩
      (by simp [redisGet, liveVal, entryLive, h1]) rfl (by simp; omega) (by norm_num) hw1]
    norm_num
  have e2 : verifyOTP s2 w2
      (⟨some ⟨⟨code, email, userID, t0, t0 + 600, 1, ip, false, s1⟩, some (t0 + 600)⟩,
        none, some ⟨1, some (t0 + 3600)⟩, some ⟨t0, some (t0 + 60)⟩⟩ : OtpStore) =
      (.error (.otpInvalid 3),
       ⟨some ⟨⟨code, email, userID, t0, t0 + 600, 2, ip, false, s2⟩, some (t0 + 600)⟩,
        none, some ⟨1, some (t0 + 3600)⟩, some ⟨t0, some (t0 + 60)⟩⟩) := by
    rw [verifyOTP_wrong_not_last s2 w2 _
      ⟨code, email, userID, t0, t0 + 600, 1, ip, false, s1⟩
      (by simp [redisGet, liveVal, entryLive, h2]) rfl (by simp; omega) (by norm_num) hw2]
    norm_num
  have e3 : verifyOTP s3 w3
      (⟨some ⟨⟨code, email, userID, t0, t0 + 600, 2, ip, false, s2⟩, some (t0 + 600)⟩,
        none, some ⟨1, some (t0 + 3600)⟩, some ⟨t0, some (t0 + 60)⟩⟩ : OtpStore) =
      (.error (.otpInvalid 2),
       ⟨some ⟨⟨code, email, userID, t0, t0 + 600, 3, ip, false, s3⟩, some (t0 + 600)⟩,
        none, some ⟨1, some (t0 + 3600)⟩, some ⟨t0, some (t0 + 60)⟩⟩) := by
    rw [verifyOTP_wrong_not_last s3 w3 _
      ⟨code, email, userID, t0, t0 + 600, 2, ip, false, s2⟩
      (by simp [redisGet, liveVal, entryLive, h3]) rfl (by simp; omega) (by norm_num) hw3]
    norm_num
  have e4 : verifyOTP s4 w4
      (⟨some ⟨⟨code, email, userID, t0, t0 + 600, 3, ip, false, s3⟩, some (t0 + 600)⟩,
        none, some ⟨1, some (t0 + 3600)⟩, some ⟨t0, some (t0 + 60)⟩⟩ : OtpStore) =
      (.error (.otpInvalid 1),
       ⟨some ⟨⟨code, email, userID, t0, t0 + 600, 4, ip, false, s4⟩, some (t0 + 600)⟩,
        none, some ⟨1, some (t0 + 3600)⟩, some ⟨t0, some (t0 + 60)⟩⟩) := by
    rw [verifyOTP_wrong_not_last s4 w4 _
      ⟨code, email, userID, t0, t0 + 600, 3, ip, false, s3⟩
      (by simp [redisGet, liveVal, entryLive, h4]) rfl (by simp; omega) (by norm_num) hw4]
    norm_num
  have e5 : verifyOTP s5 w5
      (⟨some ⟨⟨code, email, userID, t0, t0 + 600, 4, ip, false, s4⟩, some (t0 + 600)⟩,
        none, some ⟨1, some (t0 + 3600)⟩, some ⟨t0, some (t0 + 60)⟩⟩ : OtpStore) =
      (.error .otpAttemptsExceeded,
       ⟨none, some ⟨⟨1, s5 + 60, s5⟩, some (s5 + 60)⟩,
        some ⟨1, some (t0 + 3600)⟩, some ⟨t0, some (t0 + 60)⟩⟩) := by
    rw [verifyOTP_wrong_last s5 w5 _
      ⟨code, email, userID, t0, t0 + 600, 4, ip, false, s4⟩
      (by simp [redisGet, liveVal, entryLive, h5]) rfl (by simp; omega) (by norm_num) hw5]
  have e6 : verifyOTP s6 w6
      (⟨none, some ⟨⟨1, s5 + 60, s5⟩, some (s5 + 60)⟩,
        some ⟨1, some (t0 + 3600)⟩, some ⟨t0, some (t0 + 60)⟩⟩ : OtpStore) =
      (.error .otpNotFound,
       ⟨none, some ⟨⟨1, s5 + 60, s5⟩, some (s5 + 60)⟩,
        some ⟨1, some (t0 + 3600)⟩, some ⟨t0, some (t0 + 60)⟩⟩) := by
    rw [verifyOTP_notfound s6 w6
      (⟨none, some ⟨⟨1, s5 + 60, s5⟩, some (s5 + 60)⟩,
        some ⟨1, some (t0 + 3600)⟩, some ⟨t0, some (t0 + 60)⟩⟩ : OtpStore) rfl]
  rw [hg, e1, e2, e3, e4, e5, e6]
  exact ⟨rfl, rfl, by omega, rfl, rfl⟩

/-- Witness for C3's amended statement, at issuance instant 0, Verify
instants 1 to 6, code 111111 and wrong code 000000. -/
theorem five_wrong_attempts_lock_then_notfound_witness :
    ((("111111" == "000000") = false) ∧
     ((1:Int) < 0 + 600) ∧ ((2:Int) < 0 + 600) ∧ ((3:Int) < 0 + 600) ∧
     ((4:Int) < 0 + 600) ∧ ((5:Int) < 0 + 600)) ∧
    ((verifyOTP 5 "000000" (verifyOTP 4 "000000" (verifyOTP 3 "000000"
        (verifyOTP 2 "000000" (verifyOTP 1 "000000"
          (generateOTP 0 "111111" "e" "u" "i" emptyOtpStore).2).2).2).2).2).1
       = .error .otpAttemptsExceeded ∧
     (verifyOTP 5 "000000" (verifyOTP 4 "000000" (verifyOTP 3 "000000"
        (verifyOTP 2 "000000" (verifyOTP 1 "000000"
          (generateOTP 0 "111111" "e" "u" "i" emptyOtpStore).2).2).2).2).2).2.cooldown
       = some ⟨⟨1, 5 + 60, 5⟩, some (5 + 60)⟩ ∧
     (5:Int) < 5 + 60 ∧
     (verifyOTP 5 "000000" (verifyOTP 4 "000000" (verifyOTP 3 "000000"
        (verifyOTP 2 "000000" (verifyOTP 1 "000000"
          (generateOTP 0 "111111" "e" "u" "i" emptyOtpStore).2).2).2).2).2).2.otp
       = none ∧
     (verifyOTP 6 "111111" (verifyOTP 5 "000000" (verifyOTP 4 "000000"
        (verifyOTP 3 "000000" (verifyOTP 2 "000000" (verifyOTP 1 "000000"
          (generateOTP 0 "111111" "e" "u" "i" emptyOtpStore).2).2).2).2).2).2).1
       = .error .otpNotFound) :=
  ⟨⟨by decide, by norm_num, by norm_num, by norm_num, by norm_num, by norm_num⟩,
   five_wrong_attempts_lock_then_notfound "111111" "000000" "000000" "000000"
     "000000" "000000" "111111" "e" "u" "i" 0 1 2 3 4 5 6
     (by decide) (by decide) (by decide) (by decide) (by decide)
     (by norm_num) (by norm_num) (by norm_num) (by norm_num) (by norm_num)⟩

end Taskmanager
